import Mathlib

/-!
Shallow embedding of the error-classification and TLS alert layer of s2n
(src/tls/s2n_alerts.c and src/error/s2n_errno.h), together with proofs of
the stated properties of that code.

Machine integers are modelled as Nat; fallible C functions returning an
int status with a thread-local error code are modelled as returning
`Except Nat _` where the error payload is the s2n error code.  Stateful
functions take and return an explicit connection record.
-/

set_option maxRecDepth 20000

/-! ## Error code registry (src/error/s2n_errno.h) -/

/-- From src/error/s2n_errno.h: the upper 6 bits of an error value describe
the error type, the lower 26 bits the value within the category. -/
def S2N_ERR_NUM_VALUE_BITS : Nat := 26

/-- Modelled from the spec: the 8 categories in order OK, IO, CLOSED,
BLOCKED, ALERT, PROTOCOL, INTERNAL, USAGE occupy type values 0..7
(the s2n_error_type enum lives in api/s2n.h, which is not under src;
the ordering is fixed by section 3 of the spec and by the START macros
in src/error/s2n_errno.h). -/
def S2N_ERR_T_OK : Nat := 0

/-- IO category has type value 1; the name of that enum constant is not
used directly in this development, the literal 1 stands for it. -/
def S2N_ERR_T_CLOSED : Nat := 2

def S2N_ERR_T_BLOCKED : Nat := 3

def S2N_ERR_T_ALERT : Nat := 4

def S2N_ERR_T_PROTO : Nat := 5

def S2N_ERR_T_INTERNAL : Nat := 6

def S2N_ERR_T_USAGE : Nat := 7

/-- Start value for each error type, from src/error/s2n_errno.h. -/
def S2N_ERR_T_OK_START : Nat := S2N_ERR_T_OK <<< S2N_ERR_NUM_VALUE_BITS

def S2N_ERR_T_IO_START : Nat := 1 <<< S2N_ERR_NUM_VALUE_BITS

def S2N_ERR_T_CLOSED_START : Nat := S2N_ERR_T_CLOSED <<< S2N_ERR_NUM_VALUE_BITS

def S2N_ERR_T_BLOCKED_START : Nat := S2N_ERR_T_BLOCKED <<< S2N_ERR_NUM_VALUE_BITS

def S2N_ERR_T_ALERT_START : Nat := S2N_ERR_T_ALERT <<< S2N_ERR_NUM_VALUE_BITS

def S2N_ERR_T_PROTO_START : Nat := S2N_ERR_T_PROTO <<< S2N_ERR_NUM_VALUE_BITS

def S2N_ERR_T_INTERNAL_START : Nat := S2N_ERR_T_INTERNAL <<< S2N_ERR_NUM_VALUE_BITS

def S2N_ERR_T_USAGE_START : Nat := S2N_ERR_T_USAGE <<< S2N_ERR_NUM_VALUE_BITS

/-- First value of each category actually referenced by the alert code,
from the s2n_error enum in src/error/s2n_errno.h. -/
def S2N_ERR_OK : Nat := S2N_ERR_T_OK_START

def S2N_ERR_CLOSED : Nat := S2N_ERR_T_CLOSED_START

def S2N_ERR_IO_BLOCKED : Nat := S2N_ERR_T_BLOCKED_START

def S2N_ERR_ALERT : Nat := S2N_ERR_T_ALERT_START

/-- The S2N_ERR_T_PROTO range of the s2n_error enum in
src/error/s2n_errno.h, values assigned by enum auto-increment starting at
S2N_ERR_T_PROTO_START. -/
def S2N_ERR_ENCRYPT : Nat := S2N_ERR_T_PROTO_START

def S2N_ERR_DECRYPT : Nat := S2N_ERR_ENCRYPT + 1

def S2N_ERR_BAD_MESSAGE : Nat := S2N_ERR_DECRYPT + 1

def S2N_ERR_UNEXPECTED_CERT_REQUEST : Nat := S2N_ERR_BAD_MESSAGE + 1

def S2N_ERR_KEY_INIT : Nat := S2N_ERR_UNEXPECTED_CERT_REQUEST + 1

def S2N_ERR_KEY_DESTROY : Nat := S2N_ERR_KEY_INIT + 1

def S2N_ERR_DH_SERIALIZING : Nat := S2N_ERR_KEY_DESTROY + 1

def S2N_ERR_DH_SHARED_SECRET : Nat := S2N_ERR_DH_SERIALIZING + 1

def S2N_ERR_DH_WRITING_PUBLIC_KEY : Nat := S2N_ERR_DH_SHARED_SECRET + 1

def S2N_ERR_DH_FAILED_SIGNING : Nat := S2N_ERR_DH_WRITING_PUBLIC_KEY + 1

def S2N_ERR_DH_COPYING_PARAMETERS : Nat := S2N_ERR_DH_FAILED_SIGNING + 1

def S2N_ERR_DH_GENERATING_PARAMETERS : Nat := S2N_ERR_DH_COPYING_PARAMETERS + 1

def S2N_ERR_CIPHER_NOT_SUPPORTED : Nat := S2N_ERR_DH_GENERATING_PARAMETERS + 1

def S2N_ERR_NO_APPLICATION_PROTOCOL : Nat := S2N_ERR_CIPHER_NOT_SUPPORTED + 1

def S2N_ERR_FALLBACK_DETECTED : Nat := S2N_ERR_NO_APPLICATION_PROTOCOL + 1

def S2N_ERR_HASH_DIGEST_FAILED : Nat := S2N_ERR_FALLBACK_DETECTED + 1

def S2N_ERR_HASH_INIT_FAILED : Nat := S2N_ERR_HASH_DIGEST_FAILED + 1

def S2N_ERR_HASH_UPDATE_FAILED : Nat := S2N_ERR_HASH_INIT_FAILED + 1

def S2N_ERR_HASH_COPY_FAILED : Nat := S2N_ERR_HASH_UPDATE_FAILED + 1

def S2N_ERR_HASH_WIPE_FAILED : Nat := S2N_ERR_HASH_COPY_FAILED + 1

def S2N_ERR_HASH_NOT_READY : Nat := S2N_ERR_HASH_WIPE_FAILED + 1

def S2N_ERR_ALLOW_MD5_FOR_FIPS_FAILED : Nat := S2N_ERR_HASH_NOT_READY + 1

def S2N_ERR_DECODE_CERTIFICATE : Nat := S2N_ERR_ALLOW_MD5_FOR_FIPS_FAILED + 1

def S2N_ERR_DECODE_PRIVATE_KEY : Nat := S2N_ERR_DECODE_CERTIFICATE + 1

def S2N_ERR_INVALID_HELLO_RETRY : Nat := S2N_ERR_DECODE_PRIVATE_KEY + 1

def S2N_ERR_INVALID_SIGNATURE_ALGORITHM : Nat := S2N_ERR_INVALID_HELLO_RETRY + 1

def S2N_ERR_INVALID_SIGNATURE_SCHEME : Nat := S2N_ERR_INVALID_SIGNATURE_ALGORITHM + 1

def S2N_ERR_NO_VALID_SIGNATURE_SCHEME : Nat := S2N_ERR_INVALID_SIGNATURE_SCHEME + 1

def S2N_ERR_CBC_VERIFY : Nat := S2N_ERR_NO_VALID_SIGNATURE_SCHEME + 1

def S2N_ERR_DH_COPYING_PUBLIC_KEY : Nat := S2N_ERR_CBC_VERIFY + 1

def S2N_ERR_SIGN : Nat := S2N_ERR_DH_COPYING_PUBLIC_KEY + 1

def S2N_ERR_VERIFY_SIGNATURE : Nat := S2N_ERR_SIGN + 1

def S2N_ERR_ECDHE_GEN_KEY : Nat := S2N_ERR_VERIFY_SIGNATURE + 1

def S2N_ERR_ECDHE_SHARED_SECRET : Nat := S2N_ERR_ECDHE_GEN_KEY + 1

def S2N_ERR_ECDHE_UNSUPPORTED_CURVE : Nat := S2N_ERR_ECDHE_SHARED_SECRET + 1

def S2N_ERR_ECDSA_UNSUPPORTED_CURVE : Nat := S2N_ERR_ECDHE_UNSUPPORTED_CURVE + 1

def S2N_ERR_ECDHE_SERIALIZING : Nat := S2N_ERR_ECDSA_UNSUPPORTED_CURVE + 1

def S2N_ERR_KEM_UNSUPPORTED_PARAMS : Nat := S2N_ERR_ECDHE_SERIALIZING + 1

def S2N_ERR_SHUTDOWN_RECORD_TYPE : Nat := S2N_ERR_KEM_UNSUPPORTED_PARAMS + 1

def S2N_ERR_SHUTDOWN_CLOSED : Nat := S2N_ERR_SHUTDOWN_RECORD_TYPE + 1

def S2N_ERR_NON_EMPTY_RENEGOTIATION_INFO : Nat := S2N_ERR_SHUTDOWN_CLOSED + 1

def S2N_ERR_RECORD_LIMIT : Nat := S2N_ERR_NON_EMPTY_RENEGOTIATION_INFO + 1

def S2N_ERR_CERT_UNTRUSTED : Nat := S2N_ERR_RECORD_LIMIT + 1

def S2N_ERR_CERT_REVOKED : Nat := S2N_ERR_CERT_UNTRUSTED + 1

def S2N_ERR_CERT_NOT_YET_VALID : Nat := S2N_ERR_CERT_REVOKED + 1

def S2N_ERR_CERT_EXPIRED : Nat := S2N_ERR_CERT_NOT_YET_VALID + 1

def S2N_ERR_CERT_TYPE_UNSUPPORTED : Nat := S2N_ERR_CERT_EXPIRED + 1

def S2N_ERR_CERT_INVALID : Nat := S2N_ERR_CERT_TYPE_UNSUPPORTED + 1

def S2N_ERR_CERT_MAX_CHAIN_DEPTH_EXCEEDED : Nat := S2N_ERR_CERT_INVALID + 1

def S2N_ERR_CERT_REJECTED : Nat := S2N_ERR_CERT_MAX_CHAIN_DEPTH_EXCEEDED + 1

def S2N_ERR_CRL_LOOKUP_FAILED : Nat := S2N_ERR_CERT_REJECTED + 1

def S2N_ERR_CRL_SIGNATURE : Nat := S2N_ERR_CRL_LOOKUP_FAILED + 1

def S2N_ERR_CRL_ISSUER : Nat := S2N_ERR_CRL_SIGNATURE + 1

def S2N_ERR_CRL_UNHANDLED_CRITICAL_EXTENSION : Nat := S2N_ERR_CRL_ISSUER + 1

def S2N_ERR_CRL_INVALID_THIS_UPDATE : Nat := S2N_ERR_CRL_UNHANDLED_CRITICAL_EXTENSION + 1

def S2N_ERR_CRL_INVALID_NEXT_UPDATE : Nat := S2N_ERR_CRL_INVALID_THIS_UPDATE + 1

def S2N_ERR_CRL_NOT_YET_VALID : Nat := S2N_ERR_CRL_INVALID_NEXT_UPDATE + 1

def S2N_ERR_CRL_EXPIRED : Nat := S2N_ERR_CRL_NOT_YET_VALID + 1

def S2N_ERR_INVALID_MAX_FRAG_LEN : Nat := S2N_ERR_CRL_EXPIRED + 1

def S2N_ERR_MAX_FRAG_LEN_MISMATCH : Nat := S2N_ERR_INVALID_MAX_FRAG_LEN + 1

def S2N_ERR_PROTOCOL_VERSION_UNSUPPORTED : Nat := S2N_ERR_MAX_FRAG_LEN_MISMATCH + 1

def S2N_ERR_BAD_KEY_SHARE : Nat := S2N_ERR_PROTOCOL_VERSION_UNSUPPORTED + 1

def S2N_ERR_CANCELLED : Nat := S2N_ERR_BAD_KEY_SHARE + 1

def S2N_ERR_PROTOCOL_DOWNGRADE_DETECTED : Nat := S2N_ERR_CANCELLED + 1

def S2N_ERR_MAX_INNER_PLAINTEXT_SIZE : Nat := S2N_ERR_PROTOCOL_DOWNGRADE_DETECTED + 1

def S2N_ERR_RECORD_STUFFER_SIZE : Nat := S2N_ERR_MAX_INNER_PLAINTEXT_SIZE + 1

def S2N_ERR_FRAGMENT_LENGTH_TOO_LARGE : Nat := S2N_ERR_RECORD_STUFFER_SIZE + 1

def S2N_ERR_FRAGMENT_LENGTH_TOO_SMALL : Nat := S2N_ERR_FRAGMENT_LENGTH_TOO_LARGE + 1

def S2N_ERR_RECORD_STUFFER_NEEDS_DRAINING : Nat := S2N_ERR_FRAGMENT_LENGTH_TOO_SMALL + 1

def S2N_ERR_MISSING_EXTENSION : Nat := S2N_ERR_RECORD_STUFFER_NEEDS_DRAINING + 1

def S2N_ERR_UNSUPPORTED_EXTENSION : Nat := S2N_ERR_MISSING_EXTENSION + 1

def S2N_ERR_DUPLICATE_EXTENSION : Nat := S2N_ERR_UNSUPPORTED_EXTENSION + 1

def S2N_ERR_MAX_EARLY_DATA_SIZE : Nat := S2N_ERR_DUPLICATE_EXTENSION + 1

def S2N_ERR_EARLY_DATA_TRIAL_DECRYPT : Nat := S2N_ERR_MAX_EARLY_DATA_SIZE + 1

def S2N_ERR_NO_RENEGOTIATION : Nat := S2N_ERR_EARLY_DATA_TRIAL_DECRYPT + 1

def S2N_ERR_KTLS_KEYUPDATE : Nat := S2N_ERR_NO_RENEGOTIATION + 1

/-- Internal-category codes referenced by the alert code.  Offsets within
the S2N_ERR_T_INTERNAL range are counted from the s2n_error enum in
src/error/s2n_errno.h (S2N_ERR_MADVISE is position 0 of that range,
S2N_ERR_SAFETY position 10, S2N_ERR_ALERT_PRESENT position 33,
S2N_ERR_UNIMPLEMENTED position 47). -/
def S2N_ERR_MADVISE : Nat := S2N_ERR_T_INTERNAL_START

def S2N_ERR_SAFETY : Nat := S2N_ERR_MADVISE + 10

def S2N_ERR_ALERT_PRESENT : Nat := S2N_ERR_MADVISE + 33

def S2N_ERR_UNIMPLEMENTED : Nat := S2N_ERR_MADVISE + 47

/-- First USAGE-category code, from src/error/s2n_errno.h. -/
def S2N_ERR_NO_ALERT : Nat := S2N_ERR_T_USAGE_START

/-- All defined PROTOCOL-category error constants of the s2n_error enum in
src/error/s2n_errno.h, in order, excluding the S2N_ERR_T_PROTO_END
sentinel. -/
def protoErrorCodes : List Nat :=
  [S2N_ERR_ENCRYPT, S2N_ERR_DECRYPT, S2N_ERR_BAD_MESSAGE,
   S2N_ERR_UNEXPECTED_CERT_REQUEST, S2N_ERR_KEY_INIT, S2N_ERR_KEY_DESTROY,
   S2N_ERR_DH_SERIALIZING, S2N_ERR_DH_SHARED_SECRET,
   S2N_ERR_DH_WRITING_PUBLIC_KEY, S2N_ERR_DH_FAILED_SIGNING,
   S2N_ERR_DH_COPYING_PARAMETERS, S2N_ERR_DH_GENERATING_PARAMETERS,
   S2N_ERR_CIPHER_NOT_SUPPORTED, S2N_ERR_NO_APPLICATION_PROTOCOL,
   S2N_ERR_FALLBACK_DETECTED, S2N_ERR_HASH_DIGEST_FAILED,
   S2N_ERR_HASH_INIT_FAILED, S2N_ERR_HASH_UPDATE_FAILED,
   S2N_ERR_HASH_COPY_FAILED, S2N_ERR_HASH_WIPE_FAILED,
   S2N_ERR_HASH_NOT_READY, S2N_ERR_ALLOW_MD5_FOR_FIPS_FAILED,
   S2N_ERR_DECODE_CERTIFICATE, S2N_ERR_DECODE_PRIVATE_KEY,
   S2N_ERR_INVALID_HELLO_RETRY, S2N_ERR_INVALID_SIGNATURE_ALGORITHM,
   S2N_ERR_INVALID_SIGNATURE_SCHEME, S2N_ERR_NO_VALID_SIGNATURE_SCHEME,
   S2N_ERR_CBC_VERIFY, S2N_ERR_DH_COPYING_PUBLIC_KEY, S2N_ERR_SIGN,
   S2N_ERR_VERIFY_SIGNATURE, S2N_ERR_ECDHE_GEN_KEY,
   S2N_ERR_ECDHE_SHARED_SECRET, S2N_ERR_ECDHE_UNSUPPORTED_CURVE,
   S2N_ERR_ECDSA_UNSUPPORTED_CURVE, S2N_ERR_ECDHE_SERIALIZING,
   S2N_ERR_KEM_UNSUPPORTED_PARAMS, S2N_ERR_SHUTDOWN_RECORD_TYPE,
   S2N_ERR_SHUTDOWN_CLOSED, S2N_ERR_NON_EMPTY_RENEGOTIATION_INFO,
   S2N_ERR_RECORD_LIMIT, S2N_ERR_CERT_UNTRUSTED, S2N_ERR_CERT_REVOKED,
   S2N_ERR_CERT_NOT_YET_VALID, S2N_ERR_CERT_EXPIRED,
   S2N_ERR_CERT_TYPE_UNSUPPORTED, S2N_ERR_CERT_INVALID,
   S2N_ERR_CERT_MAX_CHAIN_DEPTH_EXCEEDED, S2N_ERR_CERT_REJECTED,
   S2N_ERR_CRL_LOOKUP_FAILED, S2N_ERR_CRL_SIGNATURE, S2N_ERR_CRL_ISSUER,
   S2N_ERR_CRL_UNHANDLED_CRITICAL_EXTENSION,
   S2N_ERR_CRL_INVALID_THIS_UPDATE, S2N_ERR_CRL_INVALID_NEXT_UPDATE,
   S2N_ERR_CRL_NOT_YET_VALID, S2N_ERR_CRL_EXPIRED,
   S2N_ERR_INVALID_MAX_FRAG_LEN, S2N_ERR_MAX_FRAG_LEN_MISMATCH,
   S2N_ERR_PROTOCOL_VERSION_UNSUPPORTED, S2N_ERR_BAD_KEY_SHARE,
   S2N_ERR_CANCELLED, S2N_ERR_PROTOCOL_DOWNGRADE_DETECTED,
   S2N_ERR_MAX_INNER_PLAINTEXT_SIZE, S2N_ERR_RECORD_STUFFER_SIZE,
   S2N_ERR_FRAGMENT_LENGTH_TOO_LARGE, S2N_ERR_FRAGMENT_LENGTH_TOO_SMALL,
   S2N_ERR_RECORD_STUFFER_NEEDS_DRAINING, S2N_ERR_MISSING_EXTENSION,
   S2N_ERR_UNSUPPORTED_EXTENSION, S2N_ERR_DUPLICATE_EXTENSION,
   S2N_ERR_MAX_EARLY_DATA_SIZE, S2N_ERR_EARLY_DATA_TRIAL_DECRYPT,
   S2N_ERR_NO_RENEGOTIATION, S2N_ERR_KTLS_KEYUPDATE]

/-- Modelled from the spec: classification of an error value extracts the
upper six bits of the 32-bit integer (the implementation lives in
error/s2n_errno.c, which is not under src; the bit layout is documented
in src/error/s2n_errno.h). -/
def s2n_error_get_type (error : Nat) : Nat :=
  (error % 2 ^ 32) >>> S2N_ERR_NUM_VALUE_BITS

/-! ## TLS alert constants -/

/-- From src/tls/s2n_alerts.c. -/
def S2N_TLS_ALERT_LEVEL_WARNING : Nat := 1

/-- From src/tls/s2n_alerts.c. -/
def S2N_TLS_ALERT_LEVEL_FATAL : Nat := 2

/-- Modelled from the spec: alert description codes, from the AlertMessage
enumeration in section 3 of the spec (tls/s2n_tls_parameters.h is not
under src).  close_notify is 0. -/
def S2N_TLS_ALERT_CLOSE_NOTIFY : Nat := 0

def S2N_TLS_ALERT_UNEXPECTED_MESSAGE : Nat := 10

def S2N_TLS_ALERT_HANDSHAKE_FAILURE : Nat := 40

def S2N_TLS_ALERT_PROTOCOL_VERSION : Nat := 70

/-- Modelled from the spec: the data model in section 3 of the spec lists
the internal_error alert description as 80, consistent with every other
value in that enumeration; section 4.3 of the spec writes "(60)" once,
which contradicts the section 3 enumeration. -/
def S2N_TLS_ALERT_INTERNAL_ERROR : Nat := 80

def S2N_TLS_ALERT_USER_CANCELED : Nat := 90

def S2N_TLS_ALERT_NO_RENEGOTIATION : Nat := 100

def S2N_TLS_ALERT_MISSING_EXTENSION : Nat := 109

/-- Modelled from the spec: an alert message is exactly 2 bytes
(tls/s2n_alerts.h is not under src). -/
def S2N_ALERT_LENGTH : Nat := 2

/-- Modelled from the spec: protocol version constants
(tls/s2n_tls_parameters.h is not under src).  Only the ordering
SSLv3 < TLS1.0 < TLS1.1 < TLS1.2 < TLS1.3 matters to the alert code. -/
def S2N_SSLv3 : Nat := 30

def S2N_TLS12 : Nat := 33

def S2N_TLS13 : Nat := 34

/-! ## Connection model -/

/-- Modelled from the spec: configured alert behavior, from api/s2n.h
(not under src): either fail on warning alerts (the default) or tolerate
them. -/
inductive s2n_alert_behavior where
  | S2N_ALERT_FAIL_ON_WARNINGS
  | S2N_ALERT_IGNORE_WARNINGS
deriving DecidableEq, Repr

/-- The fields of struct s2n_config read by src/tls/s2n_alerts.c.
cache_delete_rc models the return value of the session-cache delete
callback; the source discards that value, so no definition below reads
this field. -/
structure s2n_config where
  alert_behavior : s2n_alert_behavior
  cache_delete_rc : Int
deriving DecidableEq, Repr

/-- The fields of struct s2n_connection read or written by
src/tls/s2n_alerts.c.  Stuffers are modelled as the list of bytes
currently available for reading: in_buf models conn->in, alert_in models
conn->alert_in together with alert_in_data, writer_alert_out and
reader_alert_out model the two outgoing single-slot alert stuffers.
cache_evictions records each invocation of the cache_delete callback
(the session id passed to it), so cache side effects are observable. -/
structure s2n_connection where
  actual_protocol_version : Nat
  quic_enabled : Bool
  config : s2n_config
  in_buf : List Nat
  alert_in : List Nat
  closed : Bool
  closing : Bool
  close_notify_received : Bool
  close_notify_queued : Bool
  writer_alert_out : List Nat
  reader_alert_out : List Nat
  allowed_to_cache : Bool
  session_id : List Nat
  cache_evictions : List (List Nat)
deriving DecidableEq, Repr

/-- Modelled from the spec: the connection exposes its negotiated protocol
version (the accessor lives in tls/s2n_connection.c, not under src). -/
def s2n_connection_get_protocol_version (conn : s2n_connection) : Nat :=
  conn.actual_protocol_version

/-- Modelled from the spec: the connection exposes whether QUIC mode is
enabled (accessor not under src). -/
def s2n_connection_is_quic_enabled (conn : s2n_connection) : Bool :=
  conn.quic_enabled

/-- Modelled from the spec: whether the connection is eligible for session
caching (tls/s2n_resume.c is not under src). -/
def s2n_allowed_to_cache_connection (conn : s2n_connection) : Bool :=
  conn.allowed_to_cache

/-! ## src/tls/s2n_alerts.c -/

/-- s2n_translate_protocol_error_to_alert from src/tls/s2n_alerts.c.
The three S2N_ALERT_CASE entries write an alert and return OK; the
S2N_NO_ALERT case labels (transcribed in order into
s2n_no_alert_cases) bail with S2N_ERR_NO_ALERT; any error code not
listed in the switch falls through and bails with S2N_ERR_UNIMPLEMENTED. -/
def s2n_no_alert_cases : List Nat :=
  [S2N_ERR_ENCRYPT, S2N_ERR_DECRYPT, S2N_ERR_KEY_INIT, S2N_ERR_KEY_DESTROY,
   S2N_ERR_DH_SERIALIZING, S2N_ERR_DH_SHARED_SECRET,
   S2N_ERR_DH_WRITING_PUBLIC_KEY, S2N_ERR_DH_FAILED_SIGNING,
   S2N_ERR_DH_COPYING_PARAMETERS, S2N_ERR_DH_GENERATING_PARAMETERS,
   S2N_ERR_CIPHER_NOT_SUPPORTED, S2N_ERR_NO_APPLICATION_PROTOCOL,
   S2N_ERR_FALLBACK_DETECTED, S2N_ERR_HASH_DIGEST_FAILED,
   S2N_ERR_HASH_INIT_FAILED, S2N_ERR_HASH_UPDATE_FAILED,
   S2N_ERR_HASH_COPY_FAILED, S2N_ERR_HASH_WIPE_FAILED,
   S2N_ERR_HASH_NOT_READY, S2N_ERR_ALLOW_MD5_FOR_FIPS_FAILED,
   S2N_ERR_DECODE_CERTIFICATE, S2N_ERR_DECODE_PRIVATE_KEY,
   S2N_ERR_INVALID_HELLO_RETRY, S2N_ERR_INVALID_SIGNATURE_ALGORITHM,
   S2N_ERR_INVALID_SIGNATURE_SCHEME, S2N_ERR_CBC_VERIFY,
   S2N_ERR_DH_COPYING_PUBLIC_KEY, S2N_ERR_SIGN, S2N_ERR_VERIFY_SIGNATURE,
   S2N_ERR_ECDHE_GEN_KEY, S2N_ERR_ECDHE_SHARED_SECRET,
   S2N_ERR_ECDHE_UNSUPPORTED_CURVE, S2N_ERR_ECDSA_UNSUPPORTED_CURVE,
   S2N_ERR_ECDHE_SERIALIZING, S2N_ERR_KEM_UNSUPPORTED_PARAMS,
   S2N_ERR_SHUTDOWN_RECORD_TYPE, S2N_ERR_SHUTDOWN_CLOSED,
   S2N_ERR_NON_EMPTY_RENEGOTIATION_INFO, S2N_ERR_RECORD_LIMIT,
   S2N_ERR_CERT_UNTRUSTED, S2N_ERR_CERT_REVOKED, S2N_ERR_CERT_EXPIRED,
   S2N_ERR_CERT_TYPE_UNSUPPORTED, S2N_ERR_CERT_INVALID,
   S2N_ERR_CERT_MAX_CHAIN_DEPTH_EXCEEDED, S2N_ERR_CRL_LOOKUP_FAILED,
   S2N_ERR_CRL_SIGNATURE, S2N_ERR_CRL_ISSUER,
   S2N_ERR_CRL_UNHANDLED_CRITICAL_EXTENSION, S2N_ERR_INVALID_MAX_FRAG_LEN,
   S2N_ERR_MAX_FRAG_LEN_MISMATCH, S2N_ERR_PROTOCOL_VERSION_UNSUPPORTED,
   S2N_ERR_BAD_KEY_SHARE, S2N_ERR_CANCELLED,
   S2N_ERR_PROTOCOL_DOWNGRADE_DETECTED, S2N_ERR_MAX_INNER_PLAINTEXT_SIZE,
   S2N_ERR_RECORD_STUFFER_SIZE, S2N_ERR_FRAGMENT_LENGTH_TOO_LARGE,
   S2N_ERR_FRAGMENT_LENGTH_TOO_SMALL, S2N_ERR_RECORD_STUFFER_NEEDS_DRAINING,
   S2N_ERR_UNSUPPORTED_EXTENSION, S2N_ERR_DUPLICATE_EXTENSION,
   S2N_ERR_MAX_EARLY_DATA_SIZE, S2N_ERR_EARLY_DATA_TRIAL_DECRYPT]

def s2n_translate_protocol_error_to_alert (error_code : Nat) :
    Except Nat Nat :=
  if error_code = S2N_ERR_MISSING_EXTENSION then
    Except.ok S2N_TLS_ALERT_MISSING_EXTENSION
  else if error_code = S2N_ERR_BAD_MESSAGE then
    Except.ok S2N_TLS_ALERT_UNEXPECTED_MESSAGE
  else if error_code = S2N_ERR_NO_RENEGOTIATION then
    Except.ok S2N_TLS_ALERT_HANDSHAKE_FAILURE
  else if error_code ∈ s2n_no_alert_cases then
    Except.error S2N_ERR_NO_ALERT
  else
    Except.error S2N_ERR_UNIMPLEMENTED

/-- s2n_alerts_supported from src/tls/s2n_alerts.c: alerts are disabled
when QUIC manages its own alerting. -/
def s2n_alerts_supported (conn : s2n_connection) : Bool :=
  !(s2n_connection_is_quic_enabled conn)

/-- s2n_process_as_warning from src/tls/s2n_alerts.c. -/
def s2n_process_as_warning (conn : s2n_connection) (level : Nat)
    (ty : Nat) : Bool :=
  if s2n_connection_get_protocol_version conn < S2N_TLS13 then
    decide (level = S2N_TLS_ALERT_LEVEL_WARNING) &&
      decide (conn.config.alert_behavior =
        s2n_alert_behavior.S2N_ALERT_IGNORE_WARNINGS)
  else
    decide (ty = S2N_TLS_ALERT_USER_CANCELED)

/-- s2n_alerts_close_if_fatal from src/tls/s2n_alerts.c.  The two
RESULT_ENSURE checks bail with S2N_ERR_SAFETY (the equality-ensure
macro in utils/s2n_safety.h, not under src, raises the safety error on
failure, which the spec describes as a size/format error). -/
def s2n_alerts_close_if_fatal (conn : s2n_connection) (alert : List Nat) :
    s2n_connection × Except Nat Unit :=
  if alert.length ≠ S2N_ALERT_LENGTH then
    (conn, Except.error S2N_ERR_SAFETY)
  else if alert.getD 1 0 = S2N_TLS_ALERT_NO_RENEGOTIATION then
    if alert.getD 0 0 = S2N_TLS_ALERT_LEVEL_WARNING then
      (conn, Except.ok ())
    else
      (conn, Except.error S2N_ERR_SAFETY)
  else
    ({ conn with closing := true }, Except.ok ())

/-- s2n_error_get_alert from src/tls/s2n_alerts.c.  The switch over the
error type has no default branch, so a type outside the listed cases
falls through to the final return S2N_SUCCESS without writing the alert:
the ok payload records the value written to *alert, none meaning the
output byte was left untouched. -/
def s2n_error_get_alert (error : Nat) : Except Nat (Option Nat) :=
  let error_type := s2n_error_get_type error
  if error_type = S2N_ERR_T_OK ∨ error_type = S2N_ERR_T_CLOSED ∨
     error_type = S2N_ERR_T_BLOCKED ∨ error_type = S2N_ERR_T_USAGE ∨
     error_type = S2N_ERR_T_ALERT then
    Except.error S2N_ERR_NO_ALERT
  else if error_type = S2N_ERR_T_PROTO then
    match s2n_translate_protocol_error_to_alert error with
    | Except.ok a => Except.ok (some a)
    | Except.error e => Except.error e
  else if error_type = 1 ∨ error_type = S2N_ERR_T_INTERNAL then
    Except.ok (some S2N_TLS_ALERT_INTERNAL_ERROR)
  else
    Except.ok (none : Option Nat)

/-- The dispatch block of the while loop in s2n_process_alert_fragment
(src/tls/s2n_alerts.c lines 217-240), taken when the reassembly buffer
holds a complete 2-byte alert. -/
def alertDispatch (c : s2n_connection) : s2n_connection × Except Nat Unit :=
  if c.alert_in.getD 1 0 = S2N_TLS_ALERT_CLOSE_NOTIFY then
    ({ c with closed := true, close_notify_received := true }, Except.ok ())
  else if s2n_process_as_warning c (c.alert_in.getD 0 0)
      (c.alert_in.getD 1 0) then
    ({ c with alert_in := [] }, Except.ok ())
  else
    let c2 :=
      if s2n_allowed_to_cache_connection c && decide (c.session_id.length ≠ 0)
      then { c with cache_evictions := c.cache_evictions ++ [c.session_id] }
      else c
    ({ c2 with closed := true }, Except.error S2N_ERR_ALERT)

/-- The while loop of s2n_process_alert_fragment from
src/tls/s2n_alerts.c: while bytes are available in conn->in, copy at most
the bytes still required to complete a 2-byte alert into conn->alert_in,
and dispatch once the buffer holds 2 bytes. -/
def s2n_process_alert_loop (conn : s2n_connection) :
    s2n_connection × Except Nat Unit :=
  if conn.in_buf.length = 0 then
    (conn, Except.ok ())
  else
    let bytes_required : Nat := if conn.alert_in.length = 1 then 1 else 2
    let bytes_to_read : Nat := min bytes_required conn.in_buf.length
    let c1 : s2n_connection :=
      { conn with
        alert_in := conn.alert_in ++ conn.in_buf.take bytes_to_read,
        in_buf := conn.in_buf.drop bytes_to_read }
    if c1.alert_in.length = 2 then
      alertDispatch c1
    else
      s2n_process_alert_loop c1
termination_by conn.in_buf.length
decreasing_by
  simp only [List.length_drop]
  rename_i hne
  by_cases h1 : conn.alert_in.length = 1 <;> simp [h1] <;> omega

/-- s2n_process_alert_fragment from src/tls/s2n_alerts.c: the three
precondition checks, then the reassembly loop. -/
def s2n_process_alert_fragment (conn : s2n_connection) :
    s2n_connection × Except Nat Unit :=
  if conn.in_buf.length = 0 then
    (conn, Except.error S2N_ERR_BAD_MESSAGE)
  else if conn.alert_in.length = 2 then
    (conn, Except.error S2N_ERR_ALERT_PRESENT)
  else if ¬ (s2n_alerts_supported conn = true) then
    (conn, Except.error S2N_ERR_BAD_MESSAGE)
  else
    s2n_process_alert_loop conn

/-- s2n_queue_writer_close_alert_warning from src/tls/s2n_alerts.c. -/
def s2n_queue_writer_close_alert_warning (conn : s2n_connection) :
    s2n_connection × Except Nat Unit :=
  if conn.writer_alert_out.length ≠ 0 ∨ conn.close_notify_queued = true then
    (conn, Except.ok ())
  else if ¬ (s2n_alerts_supported conn = true) then
    (conn, Except.ok ())
  else
    ({ conn with
        writer_alert_out := conn.writer_alert_out ++
          [S2N_TLS_ALERT_LEVEL_WARNING, S2N_TLS_ALERT_CLOSE_NOTIFY],
        close_notify_queued := true },
     Except.ok ())

/- Equality of modelled C return values is decidable. -/
deriving instance DecidableEq for Except

/-- One invocation of inbound alert processing with both alert bytes
available at once. -/
def stepOnce (conn : s2n_connection) (b0 b1 : Nat) :
    s2n_connection × Except Nat Unit :=
  s2n_process_alert_fragment { conn with in_buf := [b0, b1] }

/-- Two invocations of inbound alert processing, the first with only the
first alert byte available, the second with only the second byte. -/
def stepTwice (conn : s2n_connection) (b0 b1 : Nat) :
    s2n_connection × Except Nat Unit :=
  s2n_process_alert_fragment
    { (s2n_process_alert_fragment { conn with in_buf := [b0] }).1 with
        in_buf := [b1] }

/-- A concrete baseline connection (TLS 1.2, default alert behavior, no
QUIC, empty buffers) used by the closed witness and counterexample
statements below. -/
def connTest : s2n_connection :=
  { actual_protocol_version := S2N_TLS12
    quic_enabled := false
    config := { alert_behavior := s2n_alert_behavior.S2N_ALERT_FAIL_ON_WARNINGS
                cache_delete_rc := 0 }
    in_buf := []
    alert_in := []
    closed := false
    closing := false
    close_notify_received := false
    close_notify_queued := false
    writer_alert_out := []
    reader_alert_out := []
    allowed_to_cache := false
    session_id := []
    cache_evictions := [] }

/-- TLS 1.2 connection configured to ignore warnings, receiving a
user-canceled warning alert. -/
def connW1 : s2n_connection :=
  { connTest with
      in_buf := [S2N_TLS_ALERT_LEVEL_WARNING, S2N_TLS_ALERT_USER_CANCELED],
      config := { alert_behavior := s2n_alert_behavior.S2N_ALERT_IGNORE_WARNINGS,
                  cache_delete_rc := 0 } }

/-- Connection receiving a close-notify alert with a fatal level byte. -/
def connW4 : s2n_connection :=
  { connTest with
      in_buf := [S2N_TLS_ALERT_LEVEL_FATAL, S2N_TLS_ALERT_CLOSE_NOTIFY] }

/-- Cache-eligible connection with a session id, receiving a fatal
handshake-failure alert. -/
def connW5 : s2n_connection :=
  { connTest with
      in_buf := [S2N_TLS_ALERT_LEVEL_FATAL, S2N_TLS_ALERT_HANDSHAKE_FAILURE],
      allowed_to_cache := true, session_id := [7] }

/-- Warning-tolerant TLS 1.2 connection whose reassembly buffer already
holds one byte (a warning level byte). -/
def connC6 : s2n_connection :=
  { connTest with
      alert_in := [1],
      config := { alert_behavior := s2n_alert_behavior.S2N_ALERT_IGNORE_WARNINGS,
                  cache_delete_rc := 0 } }

/-- TLS 1.3 connection receiving a warning-level no-renegotiation alert. -/
def connC7 : s2n_connection :=
  { connTest with
      actual_protocol_version := S2N_TLS13,
      in_buf := [S2N_TLS_ALERT_LEVEL_WARNING, S2N_TLS_ALERT_NO_RENEGOTIATION] }

/-- Connection whose reassembly buffer already holds a complete
undispatched 2-byte alert while more input is available. -/
def connC8 : s2n_connection :=
  { connTest with in_buf := [5], alert_in := [1, 0] }

/-! ## Unfolding lemmas for the reassembly loop -/

/-- Feeding a single byte to an empty reassembly buffer stores it and
returns success without dispatching. -/
lemma process_single_byte (conn : s2n_connection) (b0 : Nat)
    (hai : conn.alert_in = []) (hin : conn.in_buf = [b0])
    (hq : conn.quic_enabled = false) :
    s2n_process_alert_fragment conn =
      ({ conn with alert_in := [b0], in_buf := [] }, Except.ok ()) := by
  unfold s2n_process_alert_fragment
  simp [s2n_process_alert_loop.eq_def, hai, hin, hq, s2n_alerts_supported,
    s2n_connection_is_quic_enabled]

/-- Feeding two or more bytes to an empty reassembly buffer reads exactly
two of them and dispatches. -/
lemma process_pair (conn : s2n_connection) (b0 b1 : Nat) (rest : List Nat)
    (hai : conn.alert_in = []) (hin : conn.in_buf = b0 :: b1 :: rest)
    (hq : conn.quic_enabled = false) :
    s2n_process_alert_fragment conn =
      alertDispatch { conn with alert_in := [b0, b1], in_buf := rest } := by
  unfold s2n_process_alert_fragment
  have hmin : min 2 (b0 :: b1 :: rest).length = 2 := by simp
  simp [s2n_process_alert_loop.eq_def, hai, hin, hq, s2n_alerts_supported,
    s2n_connection_is_quic_enabled, hmin]

/-- Completing a partially buffered alert reads exactly one byte and
dispatches. -/
lemma process_second_byte (conn : s2n_connection) (b0 b1 : Nat)
    (rest : List Nat) (hai : conn.alert_in = [b0])
    (hin : conn.in_buf = b1 :: rest) (hq : conn.quic_enabled = false) :
    s2n_process_alert_fragment conn =
      alertDispatch { conn with alert_in := [b0, b1], in_buf := rest } := by
  unfold s2n_process_alert_fragment
  have hmin : min 1 (b1 :: rest).length = 1 := by simp
  simp [s2n_process_alert_loop.eq_def, hai, hin, hq, s2n_alerts_supported,
    s2n_connection_is_quic_enabled, hmin]

/-- The warning classification reads only the protocol version and the
configured alert behavior. -/
lemma process_as_warning_eq (c : s2n_connection) (l t : Nat) :
    s2n_process_as_warning c l t =
      (if c.actual_protocol_version < S2N_TLS13 then
        decide (l = S2N_TLS_ALERT_LEVEL_WARNING) &&
          decide (c.config.alert_behavior =
            s2n_alert_behavior.S2N_ALERT_IGNORE_WARNINGS)
      else decide (t = S2N_TLS_ALERT_USER_CANCELED)) := rfl

/-- alertDispatch on a completed non-close-notify alert succeeds without
closing and with a wiped buffer exactly when the alert is classified as a
tolerable warning. -/
lemma dispatch_tolerate_iff (conn : s2n_connection) (b0 b1 : Nat)
    (hcn : b1 ≠ S2N_TLS_ALERT_CLOSE_NOTIFY) (hcl : conn.closed = false) :
    ((alertDispatch { conn with alert_in := [b0, b1], in_buf := [] }).2 =
        Except.ok () ∧
      (alertDispatch { conn with alert_in := [b0, b1], in_buf := [] }).1.closed =
        false ∧
      (alertDispatch { conn with alert_in := [b0, b1], in_buf := [] }).1.alert_in =
        ([] : List Nat)) ↔
    s2n_process_as_warning conn b0 b1 = true := by
  unfold alertDispatch
  simp only [process_as_warning_eq]
  by_cases hw : (if conn.actual_protocol_version < S2N_TLS13 then
      decide (b0 = S2N_TLS_ALERT_LEVEL_WARNING) &&
        decide (conn.config.alert_behavior =
          s2n_alert_behavior.S2N_ALERT_IGNORE_WARNINGS)
    else decide (b1 = S2N_TLS_ALERT_USER_CANCELED)) = true
  · simp [hcn, hw, hcl]
  · simp [hcn, hw]

/-- The warning classification, restated as the version-dependent rule of
s2n_process_as_warning. -/
lemma warning_iff (conn : s2n_connection) (b0 b1 : Nat) :
    s2n_process_as_warning conn b0 b1 = true ↔
      (if conn.actual_protocol_version < S2N_TLS13 then
         b0 = S2N_TLS_ALERT_LEVEL_WARNING ∧
         conn.config.alert_behavior =
           s2n_alert_behavior.S2N_ALERT_IGNORE_WARNINGS
       else b1 = S2N_TLS_ALERT_USER_CANCELED) := by
  unfold s2n_process_as_warning s2n_connection_get_protocol_version
  split <;> simp

/-! ## The claims -/

/-- Claim C1: for a 2-byte inbound alert dispatched by
s2n_process_alert_fragment whose description is not close_notify, the
alert is tolerated (buffer wiped, success returned, connection not
closed) iff, below TLS 1.3, the level byte is warning and the configured
alert behavior ignores warnings, and, at TLS 1.3 or later, iff the
description byte is user_canceled, independent of level and
configuration. -/
theorem claim_C1 (conn : s2n_connection) (b0 b1 : Nat)
    (h : (conn.alert_in = [] ∧ conn.in_buf = [b0, b1]) ∨
         (conn.alert_in = [b0] ∧ conn.in_buf = [b1]))
    (hq : conn.quic_enabled = false)
    (hcn : b1 ≠ S2N_TLS_ALERT_CLOSE_NOTIFY)
    (hcl : conn.closed = false) :
    ((s2n_process_alert_fragment conn).2 = Except.ok () ∧
      (s2n_process_alert_fragment conn).1.closed = false ∧
      (s2n_process_alert_fragment conn).1.alert_in = ([] : List Nat)) ↔
    (if conn.actual_protocol_version < S2N_TLS13 then
       b0 = S2N_TLS_ALERT_LEVEL_WARNING ∧
       conn.config.alert_behavior =
         s2n_alert_behavior.S2N_ALERT_IGNORE_WARNINGS
     else b1 = S2N_TLS_ALERT_USER_CANCELED) := by
  rcases h with ⟨hai, hin⟩ | ⟨hai, hin⟩
  · rw [process_pair conn b0 b1 [] hai hin hq]
    exact (dispatch_tolerate_iff conn b0 b1 hcn hcl).trans
      (warning_iff conn b0 b1)
  · rw [process_second_byte conn b0 b1 [] hai hin hq]
    exact (dispatch_tolerate_iff conn b0 b1 hcn hcl).trans
      (warning_iff conn b0 b1)

/-- Claim C1 witness: a TLS 1.2 warning-tolerant connection receiving a
(warning, user_canceled) alert, instantiating claim_C1. -/
theorem claim_C1_witness :
    ((s2n_process_alert_fragment connW1).2 = Except.ok () ∧
      (s2n_process_alert_fragment connW1).1.closed = false ∧
      (s2n_process_alert_fragment connW1).1.alert_in = ([] : List Nat)) ↔
    (if connW1.actual_protocol_version < S2N_TLS13 then
       S2N_TLS_ALERT_LEVEL_WARNING = S2N_TLS_ALERT_LEVEL_WARNING ∧
       connW1.config.alert_behavior =
         s2n_alert_behavior.S2N_ALERT_IGNORE_WARNINGS
     else S2N_TLS_ALERT_USER_CANCELED = S2N_TLS_ALERT_USER_CANCELED) :=
  claim_C1 connW1 S2N_TLS_ALERT_LEVEL_WARNING S2N_TLS_ALERT_USER_CANCELED
    (Or.inl ⟨rfl, rfl⟩) rfl (by decide) rfl

/-- Claim C2 counterexample: for an IO-category code, s2n_error_get_alert
writes the internal_error alert description, whose value is 80, not 60 as
the claim states. -/
theorem claim_C2_counterexample :
    s2n_error_get_type S2N_ERR_T_IO_START = 1 ∧
    s2n_error_get_alert S2N_ERR_T_IO_START =
      Except.ok (some S2N_TLS_ALERT_INTERNAL_ERROR) ∧
    S2N_TLS_ALERT_INTERNAL_ERROR = 80 ∧
    (80 : Nat) ≠ 60 := ⟨rfl, rfl, rfl, by decide⟩

/-- Claim C2 (amended: the internal_error alert description has value 80,
not 60): OK, CLOSED, BLOCKED, USAGE and ALERT categories fail with the
no-alert error and write nothing; IO and INTERNAL categories succeed and
write the internal_error description (80); the PROTOCOL category
delegates to the per-code translation table. -/
theorem claim_C2_amended (e : Nat) :
    ((s2n_error_get_type e = S2N_ERR_T_OK ∨
        s2n_error_get_type e = S2N_ERR_T_CLOSED ∨
        s2n_error_get_type e = S2N_ERR_T_BLOCKED ∨
        s2n_error_get_type e = S2N_ERR_T_USAGE ∨
        s2n_error_get_type e = S2N_ERR_T_ALERT) →
      s2n_error_get_alert e = Except.error S2N_ERR_NO_ALERT) ∧
    ((s2n_error_get_type e = 1 ∨ s2n_error_get_type e = S2N_ERR_T_INTERNAL) →
      s2n_error_get_alert e = Except.ok (some S2N_TLS_ALERT_INTERNAL_ERROR) ∧
      S2N_TLS_ALERT_INTERNAL_ERROR = 80) ∧
    (s2n_error_get_type e = S2N_ERR_T_PROTO →
      s2n_error_get_alert e =
        (s2n_translate_protocol_error_to_alert e).map some) := by
  refine ⟨fun h => ?_, fun h => ⟨?_, rfl⟩, fun h => ?_⟩
  · unfold s2n_error_get_alert
    simp only [if_pos h]
  · unfold s2n_error_get_alert
    rcases h with h | h <;>
      simp [h, S2N_ERR_T_OK, S2N_ERR_T_CLOSED, S2N_ERR_T_BLOCKED,
        S2N_ERR_T_USAGE, S2N_ERR_T_ALERT, S2N_ERR_T_PROTO, S2N_ERR_T_INTERNAL]
  · unfold s2n_error_get_alert
    simp only [h]
    simp [S2N_ERR_T_OK, S2N_ERR_T_CLOSED, S2N_ERR_T_BLOCKED,
      S2N_ERR_T_USAGE, S2N_ERR_T_ALERT, S2N_ERR_T_PROTO, S2N_ERR_T_INTERNAL]
    cases htr : s2n_translate_protocol_error_to_alert e <;>
      simp [Except.map, htr]

/-- Claim C2 witness: claim_C2_amended instantiated at a code of each
dispatch group (the first OK, IO and PROTO codes). -/
theorem claim_C2_witness :
    s2n_error_get_alert S2N_ERR_OK = Except.error S2N_ERR_NO_ALERT ∧
    (s2n_error_get_alert S2N_ERR_T_IO_START =
        Except.ok (some S2N_TLS_ALERT_INTERNAL_ERROR) ∧
      S2N_TLS_ALERT_INTERNAL_ERROR = 80) ∧
    s2n_error_get_alert S2N_ERR_BAD_MESSAGE =
      (s2n_translate_protocol_error_to_alert S2N_ERR_BAD_MESSAGE).map some :=
  ⟨(claim_C2_amended S2N_ERR_OK).1 (Or.inl (by decide)),
   (claim_C2_amended S2N_ERR_T_IO_START).2.1 (Or.inl (by decide)),
   (claim_C2_amended S2N_ERR_BAD_MESSAGE).2.2 (by decide)⟩

/-- Claim C3 counterexample: S2N_ERR_ENCRYPT is a PROTOCOL-category code
outside the three-entry mapped table, yet the translation fails with the
no-alert error, not the unimplemented-mapping error the claim requires. -/
theorem claim_C3_counterexample :
    s2n_error_get_type S2N_ERR_ENCRYPT = S2N_ERR_T_PROTO ∧
    S2N_ERR_ENCRYPT ≠ S2N_ERR_MISSING_EXTENSION ∧
    S2N_ERR_ENCRYPT ≠ S2N_ERR_BAD_MESSAGE ∧
    S2N_ERR_ENCRYPT ≠ S2N_ERR_NO_RENEGOTIATION ∧
    s2n_translate_protocol_error_to_alert S2N_ERR_ENCRYPT =
      Except.error S2N_ERR_NO_ALERT ∧
    S2N_ERR_NO_ALERT ≠ S2N_ERR_UNIMPLEMENTED :=
  ⟨rfl, by decide, by decide, by decide, rfl, by decide⟩

/-- Claim C3 (amended: protocol codes outside the three-entry mapped
table fail with the no-alert error when they appear in the explicit
no-alert case list of the switch, and with the unimplemented-mapping
error only when absent from the switch entirely): the three documented
mappings hold, every listed no-alert code is a PROTOCOL code failing with
the no-alert error, and every remaining defined PROTOCOL code fails with
the unimplemented-mapping error. -/
theorem claim_C3_amended :
    s2n_translate_protocol_error_to_alert S2N_ERR_MISSING_EXTENSION =
      Except.ok S2N_TLS_ALERT_MISSING_EXTENSION ∧
    s2n_translate_protocol_error_to_alert S2N_ERR_BAD_MESSAGE =
      Except.ok S2N_TLS_ALERT_UNEXPECTED_MESSAGE ∧
    s2n_translate_protocol_error_to_alert S2N_ERR_NO_RENEGOTIATION =
      Except.ok S2N_TLS_ALERT_HANDSHAKE_FAILURE ∧
    (∀ e ∈ protoErrorCodes, s2n_error_get_type e = S2N_ERR_T_PROTO) ∧
    (∀ e ∈ s2n_no_alert_cases, e ∈ protoErrorCodes) ∧
    (∀ e ∈ s2n_no_alert_cases,
      s2n_translate_protocol_error_to_alert e =
        Except.error S2N_ERR_NO_ALERT) ∧
    (∀ e ∈ protoErrorCodes, e ∉ s2n_no_alert_cases →
      e ≠ S2N_ERR_MISSING_EXTENSION → e ≠ S2N_ERR_BAD_MESSAGE →
      e ≠ S2N_ERR_NO_RENEGOTIATION →
      s2n_translate_protocol_error_to_alert e =
        Except.error S2N_ERR_UNIMPLEMENTED) := by
  refine ⟨rfl, rfl, rfl, by decide, by decide, by decide, by decide⟩

/-- Claim C3 witness: claim_C3_amended instantiated at a no-alert code, an
unlisted code, and the last defined PROTOCOL code. -/
theorem claim_C3_witness :
    s2n_translate_protocol_error_to_alert S2N_ERR_DECRYPT =
      Except.error S2N_ERR_NO_ALERT ∧
    s2n_translate_protocol_error_to_alert S2N_ERR_UNEXPECTED_CERT_REQUEST =
      Except.error S2N_ERR_UNIMPLEMENTED ∧
    s2n_error_get_type S2N_ERR_KTLS_KEYUPDATE = S2N_ERR_T_PROTO :=
  ⟨claim_C3_amended.2.2.2.2.2.1 S2N_ERR_DECRYPT (by decide),
   claim_C3_amended.2.2.2.2.2.2 S2N_ERR_UNEXPECTED_CERT_REQUEST (by decide)
     (by decide) (by decide) (by decide) (by decide),
   claim_C3_amended.2.2.2.1 S2N_ERR_KTLS_KEYUPDATE (by decide)⟩

/-- Claim C4 counterexample: on receiving (warning, close_notify), the
code sets the closed and close-notify-received flags and returns success,
but leaves the completed alert in the reassembly buffer instead of
clearing it as the claim states. -/
theorem claim_C4_counterexample :
    (s2n_process_alert_fragment { connTest with in_buf := [1, 0] }).2 =
      Except.ok () ∧
    (s2n_process_alert_fragment
        { connTest with in_buf := [1, 0] }).1.close_notify_received = true ∧
    (s2n_process_alert_fragment { connTest with in_buf := [1, 0] }).1.alert_in =
      [1, 0] ∧
    ([1, 0] : List Nat) ≠ [] := by
  rw [process_pair { connTest with in_buf := [1, 0] } 1 0 [] rfl rfl rfl]
  unfold alertDispatch
  simp [S2N_TLS_ALERT_CLOSE_NOTIFY]

/-- Claim C4 (amended: the reassembly buffer is not cleared; the
completed 2-byte alert is left in it): completing a 2-byte alert whose
description byte is close_notify sets the closed flag, sets
close-notify-received, and returns success, regardless of the level byte
and of the protocol version, leaving the completed alert in the
reassembly buffer. -/
theorem claim_C4_amended (conn : s2n_connection) (b0 : Nat) (rest : List Nat)
    (hq : conn.quic_enabled = false)
    (h : (conn.alert_in = [] ∧
            conn.in_buf = b0 :: S2N_TLS_ALERT_CLOSE_NOTIFY :: rest) ∨
         (conn.alert_in = [b0] ∧
            conn.in_buf = S2N_TLS_ALERT_CLOSE_NOTIFY :: rest)) :
    (s2n_process_alert_fragment conn).1.closed = true ∧
    (s2n_process_alert_fragment conn).1.close_notify_received = true ∧
    (s2n_process_alert_fragment conn).1.alert_in =
      [b0, S2N_TLS_ALERT_CLOSE_NOTIFY] ∧
    (s2n_process_alert_fragment conn).1.in_buf = rest ∧
    (s2n_process_alert_fragment conn).2 = Except.ok () := by
  rcases h with ⟨hai, hin⟩ | ⟨hai, hin⟩
  · rw [process_pair conn b0 S2N_TLS_ALERT_CLOSE_NOTIFY rest hai hin hq]
    unfold alertDispatch
    simp
  · rw [process_second_byte conn b0 S2N_TLS_ALERT_CLOSE_NOTIFY rest hai hin hq]
    unfold alertDispatch
    simp

/-- Claim C4 witness: claim_C4_amended instantiated on a close-notify
alert carrying a fatal level byte. -/
theorem claim_C4_witness :
    (s2n_process_alert_fragment connW4).1.closed = true ∧
    (s2n_process_alert_fragment connW4).1.close_notify_received = true ∧
    (s2n_process_alert_fragment connW4).1.alert_in =
      [S2N_TLS_ALERT_LEVEL_FATAL, S2N_TLS_ALERT_CLOSE_NOTIFY] ∧
    (s2n_process_alert_fragment connW4).1.in_buf = [] ∧
    (s2n_process_alert_fragment connW4).2 = Except.ok () :=
  claim_C4_amended connW4 S2N_TLS_ALERT_LEVEL_FATAL [] rfl (Or.inl ⟨rfl, rfl⟩)

/-- Claim C5: a completed 2-byte alert that is neither close_notify nor
tolerated as a warning, on a connection allowed to cache with a non-empty
session id, invokes the session-cache delete callback on that session id,
sets the closed flag, and fails with the ALERT-category alert-received
error.  The cache_delete_rc field modelling the callback return value is
read by no definition in this development, mirroring the source, which
discards the callback return value, so these conclusions hold for every
callback outcome. -/
theorem claim_C5 (conn : s2n_connection) (b0 b1 : Nat)
    (h : (conn.alert_in = [] ∧ conn.in_buf = [b0, b1]) ∨
         (conn.alert_in = [b0] ∧ conn.in_buf = [b1]))
    (hq : conn.quic_enabled = false)
    (hcn : b1 ≠ S2N_TLS_ALERT_CLOSE_NOTIFY)
    (hw : s2n_process_as_warning conn b0 b1 = false)
    (hcache : conn.allowed_to_cache = true)
    (hsid : conn.session_id ≠ []) :
    (s2n_process_alert_fragment conn).1.cache_evictions =
      conn.cache_evictions ++ [conn.session_id] ∧
    (s2n_process_alert_fragment conn).1.closed = true ∧
    (s2n_process_alert_fragment conn).2 = Except.error S2N_ERR_ALERT := by
  have hw' := hw
  rw [process_as_warning_eq] at hw'
  rcases h with ⟨hai, hin⟩ | ⟨hai, hin⟩
  · rw [process_pair conn b0 b1 [] hai hin hq]
    unfold alertDispatch
    simp only [process_as_warning_eq]
    simp [hcn, hw', s2n_allowed_to_cache_connection, hcache, hsid,
      List.length_eq_zero]
  · rw [process_second_byte conn b0 b1 [] hai hin hq]
    unfold alertDispatch
    simp only [process_as_warning_eq]
    simp [hcn, hw', s2n_allowed_to_cache_connection, hcache, hsid,
      List.length_eq_zero]

/-- Claim C5 witness: claim_C5 instantiated on a cache-eligible TLS 1.2
connection receiving a fatal handshake-failure alert. -/
theorem claim_C5_witness :
    (s2n_process_alert_fragment connW5).1.cache_evictions =
      connW5.cache_evictions ++ [connW5.session_id] ∧
    (s2n_process_alert_fragment connW5).1.closed = true ∧
    (s2n_process_alert_fragment connW5).2 = Except.error S2N_ERR_ALERT :=
  claim_C5 connW5 S2N_TLS_ALERT_LEVEL_FATAL S2N_TLS_ALERT_HANDSHAKE_FAILURE
    (Or.inl ⟨rfl, rfl⟩) rfl (by decide) (by decide) rfl (by decide)

/-- Claim C6 counterexample: with one byte already buffered, the
warning-tolerant dispatch consumes only the first newly arrived byte and
returns, so the coalesced call ends with an empty reassembly buffer while
the two fragmented calls end with the second byte buffered: the final
states differ. -/
theorem claim_C6_counterexample :
    connC6.alert_in = [1] ∧
    (stepOnce connC6 90 7).1.alert_in = ([] : List Nat) ∧
    (stepTwice connC6 90 7).1.alert_in = [7] ∧
    ([7] : List Nat) ≠ [] := by
  have ha : s2n_process_alert_fragment { connC6 with in_buf := [90] } =
      ({ connC6 with alert_in := [], in_buf := [] }, Except.ok ()) := by
    rw [process_second_byte { connC6 with in_buf := [90] } 1 90 [] rfl rfl rfl]
    rfl
  refine ⟨rfl, ?_, ?_, by decide⟩
  · unfold stepOnce
    rw [process_second_byte { connC6 with in_buf := [90, 7] } 1 90 [7] rfl rfl
      rfl]
    rfl
  · unfold stepTwice
    rw [ha]
    rw [process_single_byte]
    all_goals rfl

/-- Claim C6 (amended: the equivalence requires the reassembly buffer to
be empty at the start): starting from an empty reassembly buffer, feeding
both alert bytes in one call yields the same final reassembly buffer,
closed and close-notify-received flags, cache evictions and
success-or-error outcome as feeding the two bytes in two consecutive
calls, whose first call succeeds whenever alerts are supported. -/
theorem claim_C6_amended (conn : s2n_connection) (b0 b1 : Nat)
    (hai : conn.alert_in = []) :
    (stepTwice conn b0 b1).1.alert_in = (stepOnce conn b0 b1).1.alert_in ∧
    (stepTwice conn b0 b1).1.closed = (stepOnce conn b0 b1).1.closed ∧
    (stepTwice conn b0 b1).1.close_notify_received =
      (stepOnce conn b0 b1).1.close_notify_received ∧
    (stepTwice conn b0 b1).1.cache_evictions =
      (stepOnce conn b0 b1).1.cache_evictions ∧
    (stepTwice conn b0 b1).2 = (stepOnce conn b0 b1).2 ∧
    (conn.quic_enabled = false →
      (s2n_process_alert_fragment { conn with in_buf := [b0] }).2 =
        Except.ok ()) := by
  by_cases hq : conn.quic_enabled = true
  · unfold stepOnce stepTwice s2n_process_alert_fragment
    simp [hai, hq, s2n_alerts_supported, s2n_connection_is_quic_enabled]
  · have hq' : conn.quic_enabled = false := by
      cases hqe : conn.quic_enabled
      · rfl
      · exact absurd hqe hq
    have h1 := process_single_byte { conn with in_buf := [b0] } b0 hai rfl hq'
    have h2 : stepTwice conn b0 b1 =
        alertDispatch { conn with alert_in := [b0, b1], in_buf := [] } := by
      unfold stepTwice
      rw [h1]
      exact process_second_byte _ b0 b1 [] rfl rfl hq'
    have h3 : stepOnce conn b0 b1 =
        alertDispatch { conn with alert_in := [b0, b1], in_buf := [] } := by
      unfold stepOnce
      exact process_pair _ b0 b1 [] hai rfl hq'
    rw [h2, h3]
    refine ⟨rfl, rfl, rfl, rfl, rfl, fun _ => ?_⟩
    rw [h1]

/-- Claim C6 witness: claim_C6_amended instantiated on the baseline
connection receiving a (warning, user_canceled) pair. -/
theorem claim_C6_witness :
    (stepTwice connTest 1 90).1.alert_in = (stepOnce connTest 1 90).1.alert_in ∧
    (stepTwice connTest 1 90).1.closed = (stepOnce connTest 1 90).1.closed ∧
    (stepTwice connTest 1 90).1.close_notify_received =
      (stepOnce connTest 1 90).1.close_notify_received ∧
    (stepTwice connTest 1 90).1.cache_evictions =
      (stepOnce connTest 1 90).1.cache_evictions ∧
    (stepTwice connTest 1 90).2 = (stepOnce connTest 1 90).2 ∧
    (connTest.quic_enabled = false →
      (s2n_process_alert_fragment { connTest with in_buf := [1] }).2 =
        Except.ok ()) :=
  claim_C6_amended connTest 1 90 rfl

/-- Claim C7 counterexample: the inbound fragment processor in
src/tls/s2n_alerts.c closes the connection and raises the ALERT-category
error on an untolerated (warning, no_renegotiation) alert at TLS 1.3, so
a received warning-level no_renegotiation alert can trigger connection
closure, contrary to the claim. -/
theorem claim_C7_counterexample :
    connC7.in_buf =
      [S2N_TLS_ALERT_LEVEL_WARNING, S2N_TLS_ALERT_NO_RENEGOTIATION] ∧
    (s2n_process_alert_fragment connC7).1.closed = true ∧
    (s2n_process_alert_fragment connC7).2 = Except.error S2N_ERR_ALERT ∧
    S2N_ERR_ALERT ≠ S2N_ERR_SAFETY := by
  refine ⟨rfl, ?_, ?_, by decide⟩
  · rw [process_pair connC7 1 100 [] rfl rfl rfl]
    rfl
  · rw [process_pair connC7 1 100 [] rfl rfl rfl]
    rfl

/-- Claim C7 (amended: the fatal-level check lives in
s2n_alerts_close_if_fatal, not in the fragment processor, and a
warning-level no_renegotiation alert avoids closure only on that path;
s2n_process_alert_fragment may still close the connection when the
warning is not tolerated): s2n_alerts_close_if_fatal on a 2-byte
no_renegotiation alert fails with the safety (size/format) error and
leaves the connection unchanged when the level is not warning, and
succeeds leaving the connection unchanged, in particular without setting
the closing flag, when the level is warning. -/
theorem claim_C7_amended (conn : s2n_connection) (level : Nat) :
    (level ≠ S2N_TLS_ALERT_LEVEL_WARNING →
      s2n_alerts_close_if_fatal conn
          [level, S2N_TLS_ALERT_NO_RENEGOTIATION] =
        (conn, Except.error S2N_ERR_SAFETY)) ∧
    s2n_alerts_close_if_fatal conn
        [S2N_TLS_ALERT_LEVEL_WARNING, S2N_TLS_ALERT_NO_RENEGOTIATION] =
      (conn, Except.ok ()) := by
  constructor
  · intro hl
    unfold s2n_alerts_close_if_fatal
    simp [S2N_ALERT_LENGTH, hl]
  · unfold s2n_alerts_close_if_fatal
    simp [S2N_ALERT_LENGTH]

/-- Claim C7 witness: claim_C7_amended instantiated at the fatal and
warning levels on the baseline connection. -/
theorem claim_C7_witness :
    s2n_alerts_close_if_fatal connTest
        [S2N_TLS_ALERT_LEVEL_FATAL, S2N_TLS_ALERT_NO_RENEGOTIATION] =
      (connTest, Except.error S2N_ERR_SAFETY) ∧
    s2n_alerts_close_if_fatal connTest
        [S2N_TLS_ALERT_LEVEL_WARNING, S2N_TLS_ALERT_NO_RENEGOTIATION] =
      (connTest, Except.ok ()) :=
  ⟨(claim_C7_amended connTest S2N_TLS_ALERT_LEVEL_FATAL).1 (by decide),
   (claim_C7_amended connTest S2N_TLS_ALERT_LEVEL_WARNING).2⟩

/-- Claim C8 counterexample: a reassembly buffer already holding a
complete 2-byte alert makes s2n_process_alert_fragment fail with the
alert-present error, not the bad-message error the claim states. -/
theorem claim_C8_counterexample :
    connC8.alert_in.length = 2 ∧
    connC8.in_buf.length ≠ 0 ∧
    s2n_process_alert_fragment connC8 =
      (connC8, Except.error S2N_ERR_ALERT_PRESENT) ∧
    S2N_ERR_ALERT_PRESENT ≠ S2N_ERR_BAD_MESSAGE := by
  refine ⟨rfl, by decide, rfl, by decide⟩

/-- Claim C8 (amended: a full reassembly buffer fails with the
alert-present error, not the bad-message error): the processor fails
without consuming input or changing state, with the bad-message error on
zero available bytes, with the alert-present error when the reassembly
buffer already holds a complete 2-byte alert, and with the bad-message
error when alerts are unsupported (QUIC mode). -/
theorem claim_C8_amended (conn : s2n_connection) :
    (conn.in_buf.length = 0 →
      s2n_process_alert_fragment conn =
        (conn, Except.error S2N_ERR_BAD_MESSAGE)) ∧
    (conn.in_buf.length ≠ 0 → conn.alert_in.length = 2 →
      s2n_process_alert_fragment conn =
        (conn, Except.error S2N_ERR_ALERT_PRESENT)) ∧
    (conn.in_buf.length ≠ 0 → conn.alert_in.length ≠ 2 →
      conn.quic_enabled = true →
      s2n_process_alert_fragment conn =
        (conn, Except.error S2N_ERR_BAD_MESSAGE)) := by
  refine ⟨fun h1 => ?_, fun h1 h2 => ?_, fun h1 h2 h3 => ?_⟩
  · unfold s2n_process_alert_fragment
    simp [h1]
  · unfold s2n_process_alert_fragment
    simp [h1, h2]
  · unfold s2n_process_alert_fragment
    simp [h1, h2, h3, s2n_alerts_supported, s2n_connection_is_quic_enabled]

/-- Claim C8 witness: claim_C8_amended instantiated on the three failing
configurations. -/
theorem claim_C8_witness :
    s2n_process_alert_fragment connTest =
      (connTest, Except.error S2N_ERR_BAD_MESSAGE) ∧
    s2n_process_alert_fragment connC8 =
      (connC8, Except.error S2N_ERR_ALERT_PRESENT) ∧
    s2n_process_alert_fragment
        { connTest with in_buf := [5], quic_enabled := true } =
      ({ connTest with in_buf := [5], quic_enabled := true },
        Except.error S2N_ERR_BAD_MESSAGE) :=
  ⟨(claim_C8_amended connTest).1 rfl,
   (claim_C8_amended connC8).2.1 (by decide) rfl,
   (claim_C8_amended
      { connTest with in_buf := [5], quic_enabled := true }).2.2
     (by decide) (by decide) rfl⟩

/-- Claim C9: queueing the writer close-notify warning always succeeds;
it enqueues the (warning, close_notify) pair and marks close-notify as
queued exactly when the writer alert slot is empty, no close-notify was
queued before, and alerts are supported; a second call in a row is a
no-op, so two calls from a fresh supported connection enqueue exactly one
2-byte message. -/
theorem claim_C9 (conn : s2n_connection) :
    (s2n_queue_writer_close_alert_warning conn).2 = Except.ok () ∧
    (¬ (conn.writer_alert_out.length ≠ 0 ∨ conn.close_notify_queued = true ∨
          conn.quic_enabled = true) →
      (s2n_queue_writer_close_alert_warning conn).1 =
        { conn with
            writer_alert_out := conn.writer_alert_out ++
              [S2N_TLS_ALERT_LEVEL_WARNING, S2N_TLS_ALERT_CLOSE_NOTIFY],
            close_notify_queued := true }) ∧
    ((conn.writer_alert_out.length ≠ 0 ∨ conn.close_notify_queued = true ∨
        conn.quic_enabled = true) →
      (s2n_queue_writer_close_alert_warning conn).1 = conn) ∧
    (s2n_queue_writer_close_alert_warning
        (s2n_queue_writer_close_alert_warning conn).1).1 =
      (s2n_queue_writer_close_alert_warning conn).1 ∧
    (conn.writer_alert_out = [] → conn.close_notify_queued = false →
      conn.quic_enabled = false →
      (s2n_queue_writer_close_alert_warning
          (s2n_queue_writer_close_alert_warning conn).1).1.writer_alert_out =
        [S2N_TLS_ALERT_LEVEL_WARNING, S2N_TLS_ALERT_CLOSE_NOTIFY]) := by
  by_cases hc : conn.writer_alert_out.length ≠ 0 ∨
      conn.close_notify_queued = true ∨ conn.quic_enabled = true
  · have hf : s2n_queue_writer_close_alert_warning conn =
        (conn, Except.ok ()) := by
      unfold s2n_queue_writer_close_alert_warning
      rcases hc with h | h | h
      · simp [h]
      · simp [h]
      · simp [h, s2n_alerts_supported, s2n_connection_is_quic_enabled]
    refine ⟨by rw [hf], fun hn => absurd hc hn, fun _ => by rw [hf],
      by rw [hf, hf], fun he hq hqc => absurd hc (by simp [he, hq, hqc])⟩
  · have h1 : conn.writer_alert_out.length = 0 := by
      rcases Nat.eq_zero_or_pos conn.writer_alert_out.length with h | h
      · exact h
      · exact absurd (Or.inl (Nat.pos_iff_ne_zero.mp h)) hc
    have h2 : conn.close_notify_queued = false := by
      cases h : conn.close_notify_queued
      · rfl
      · exact absurd (Or.inr (Or.inl h)) hc
    have h3 : conn.quic_enabled = false := by
      cases h : conn.quic_enabled
      · rfl
      · exact absurd (Or.inr (Or.inr h)) hc
    have hf : s2n_queue_writer_close_alert_warning conn =
        ({ conn with
            writer_alert_out := conn.writer_alert_out ++
              [S2N_TLS_ALERT_LEVEL_WARNING, S2N_TLS_ALERT_CLOSE_NOTIFY],
            close_notify_queued := true }, Except.ok ()) := by
      unfold s2n_queue_writer_close_alert_warning
      simp [h1, h2, h3, s2n_alerts_supported, s2n_connection_is_quic_enabled]
    have hg : s2n_queue_writer_close_alert_warning
        { conn with
            writer_alert_out := conn.writer_alert_out ++
              [S2N_TLS_ALERT_LEVEL_WARNING, S2N_TLS_ALERT_CLOSE_NOTIFY],
            close_notify_queued := true } =
        ({ conn with
            writer_alert_out := conn.writer_alert_out ++
              [S2N_TLS_ALERT_LEVEL_WARNING, S2N_TLS_ALERT_CLOSE_NOTIFY],
            close_notify_queued := true }, Except.ok ()) := by
      unfold s2n_queue_writer_close_alert_warning
      simp
    refine ⟨by rw [hf], fun _ => by rw [hf], fun hcon => absurd hcon hc,
      by rw [hf, hg], fun he hq hqc => by rw [hf, hg]; simp [he]⟩

/-- Claim C9 witness: claim_C9 instantiated on the baseline connection,
showing one message enqueued after two consecutive calls. -/
theorem claim_C9_witness :
    (s2n_queue_writer_close_alert_warning connTest).1 =
      { connTest with
          writer_alert_out := connTest.writer_alert_out ++
            [S2N_TLS_ALERT_LEVEL_WARNING, S2N_TLS_ALERT_CLOSE_NOTIFY],
          close_notify_queued := true } ∧
    (s2n_queue_writer_close_alert_warning
        (s2n_queue_writer_close_alert_warning connTest).1).1.writer_alert_out =
      [S2N_TLS_ALERT_LEVEL_WARNING, S2N_TLS_ALERT_CLOSE_NOTIFY] :=
  ⟨(claim_C9 connTest).2.1 (by decide),
   (claim_C9 connTest).2.2.2.2 rfl rfl rfl⟩

/-- Claim C10: an error value whose extracted type is outside the 8
defined categories falls through the switch of s2n_error_get_alert,
which has no default branch, so the call returns success without writing
the output alert byte. -/
theorem claim_C10 (e : Nat) (h : 7 < s2n_error_get_type e) :
    s2n_error_get_alert e = Except.ok (none : Option Nat) := by
  have h1 : ¬ (s2n_error_get_type e = S2N_ERR_T_OK ∨
      s2n_error_get_type e = S2N_ERR_T_CLOSED ∨
      s2n_error_get_type e = S2N_ERR_T_BLOCKED ∨
      s2n_error_get_type e = S2N_ERR_T_USAGE ∨
      s2n_error_get_type e = S2N_ERR_T_ALERT) := by
    unfold S2N_ERR_T_OK S2N_ERR_T_CLOSED S2N_ERR_T_BLOCKED S2N_ERR_T_USAGE
      S2N_ERR_T_ALERT
    omega
  have h2 : ¬ s2n_error_get_type e = S2N_ERR_T_PROTO := by
    unfold S2N_ERR_T_PROTO
    omega
  have h3 : ¬ (s2n_error_get_type e = 1 ∨
      s2n_error_get_type e = S2N_ERR_T_INTERNAL) := by
    unfold S2N_ERR_T_INTERNAL
    omega
  unfold s2n_error_get_alert
  simp only [if_neg h1, if_neg h2, if_neg h3]

/-- Claim C10 witness: claim_C10 instantiated at the first integer whose
category bits exceed the USAGE category. -/
theorem claim_C10_witness :
    s2n_error_get_alert (8 <<< 26) = Except.ok (none : Option Nat) :=
  claim_C10 (8 <<< 26) (by decide)
